import Mathlib

/-!
A verification development for the hobo VM manager (hobo.go).

Go strings are modelled as lists of characters; the helpers below embed the
functions from Go's strings package that hobo.go uses (TrimSpace, Split,
Fields, HasPrefix, TrimRight).  Stateful code (the fetch routine, the clone
pipeline, the DHCP polling loop) is embedded as pure functions over explicit
oracles describing the outcomes of external effects (file existence, process
exit status, captured output), returning the action traces the code performs.
-/

namespace Hobo

/-- Go strings, modelled as lists of characters. -/
abbrev GoString := List Char

/-- Shorthand to build a GoString from a Lean string literal. -/
def str (s : String) : GoString := s.data

/-- Whitespace test used by strings.TrimSpace / strings.Fields. -/
def goIsSpace (c : Char) : Bool := c.isWhitespace

/-- Embedding of Go strings.TrimSpace: drop whitespace from both ends. -/
def goTrimSpace (s : GoString) : GoString :=
  ((s.dropWhile goIsSpace).reverse.dropWhile goIsSpace).reverse

/-- Embedding of Go strings.HasPrefix. -/
def goHasPre (pre s : GoString) : Bool := pre.isPrefixOf s

/-- Embedding of Go strings.Split(s, sep) for a one-character separator. -/
def goSplitChar (sep : Char) : GoString → List GoString
  | [] => [[]]
  | c :: s =>
    if c = sep then [] :: goSplitChar sep s
    else
      match goSplitChar sep s with
      | [] => [[c]]
      | l :: ls => (c :: l) :: ls

/-- Accumulator loop for goFields: gather maximal runs of non-space characters. -/
def goFieldsAux : GoString → GoString → List GoString
  | [], acc => if acc.isEmpty then [] else [acc.reverse]
  | c :: s, acc =>
    if goIsSpace c then
      if acc.isEmpty then goFieldsAux s [] else acc.reverse :: goFieldsAux s []
    else
      goFieldsAux s (c :: acc)

/-- Embedding of Go strings.Fields: split around runs of whitespace. -/
def goFields (s : GoString) : List GoString := goFieldsAux s []

/-- Embedding of Go strings.TrimRight(s, ";"): drop trailing semicolons. -/
def goTrimRightSemi (s : GoString) : GoString :=
  (s.reverse.dropWhile (fun c => c = ';')).reverse

/-! ## Bootstrap output classification (runClone, hobo.go lines 836-850)

The captured output of the remote bootstrap session is trimmed, split on
newlines, and the trimmed last line is compared against the sentinel.
On a sentinel match the instance config is written (the exec error is
overwritten by the writeConfig result); otherwise the exec error, if any,
is fatal.
-/

/-- The bootstrap sentinel string echoed by bootstrapBashScript. -/
def sentinelLine : GoString := str "hobo-bootstrap-ok"

/-- The line list examined by runClone:
strings.Split(strings.TrimSpace(string(out)), "\n"). -/
def bootstrapOutLines (out : GoString) : List GoString :=
  goSplitChar '\n' (goTrimSpace out)

/-- The last output line indexed by runClone: outlines[len(outlines)-1]. -/
def lastOutLine (out : GoString) : GoString :=
  let outlines := bootstrapOutLines out
  outlines.getD (outlines.length - 1) []

/-- The sentinel test of runClone:
strings.TrimSpace(outlines[len(outlines)-1]) == "hobo-bootstrap-ok". -/
def bootstrapSentinelOk (out : GoString) : Bool :=
  goTrimSpace (lastOutLine out) == sentinelLine

/-- Result of the bootstrap-execution step: whether the instance config was
written (the commit) and whether runClone aborted via log.Fatalf. -/
structure BootstrapResult where
  committed : Bool
  fatal : Bool
deriving DecidableEq, Repr

/-- Embedding of the classification logic after execCmd.Output() in runClone:
execOk is whether the remote command exited zero (Output returned no error),
writeOk is whether writeConfig succeeded.  On a sentinel match the code sets
err = vm.writeConfig(), discarding the exec error; otherwise err keeps the
exec error and no commit happens. -/
def bootstrapStage (out : GoString) (execOk writeOk : Bool) : BootstrapResult :=
  if bootstrapSentinelOk out then
    { committed := writeOk, fatal := !writeOk }
  else
    { committed := false, fatal := !execOk }

/-! ## Artifact fetch (runFetch, hobo.go lines 613-690)

The canonical archive path is derived from the boxcar URL; downloads go to a
uniquely named dot-file in the same directory.  Contents are abstract (type
variable), digests are produced by an abstract hash function standing for the
streaming sha256 accumulator.  The oracle gives the content currently cached
at the canonical path (if any) and the HTTP response (status and body, or
none for a transport error).  Fatal exits via log.Fatalf do not run deferred
cleanups, which is why the temp file survives transport/status failures. -/

/-- Temp-file name used by runFetch:
fmt.Sprintf(".%s-%d", path.Base(archive), time.Now().UnixNano()). -/
def archiveTmpName (base : String) (nanos : Nat) : String :=
  "." ++ base ++ "-" ++ toString nanos

/-- Filesystem mutations runFetch can perform, in order of occurrence. -/
inductive FetchAction where
  | removeArchive
  | createTmp
  | writeTmp
  | removeTmp
  | renameTmpToArchive
deriving DecidableEq, Repr

/-- Terminal outcome of runFetch; integrity errors carry both the declared
and the computed digest, as in the log.Fatalf format string. -/
inductive FetchOutcome where
  | ok
  | integrityError (expected actual : String)
  | httpGetError
  | httpStatusError (code : Nat)
deriving DecidableEq, Repr

/-- Result of a fetch: outcome, mutation trace, whether the network was
touched, and the content left at the canonical archive path. -/
structure FetchResult (α : Type) where
  outcome : FetchOutcome
  actions : List FetchAction
  networkAccessed : Bool
  finalArchive : Option α
deriving DecidableEq, Repr

/-- Embedding of runFetch.  cached is the content at the canonical path
before the call; response is the HTTP status and body (none = transport
error).  The cached branch hashes the existing file and never reaches the
network; the download branch creates the temp file, streams the body through
the hasher into it, and renames only on a digest match. -/
def runFetchModel {α : Type} (hash : α → String) (declaredSha : String)
    (cached : Option α) (response : Option (Nat × α)) : FetchResult α :=
  match cached with
  | some c =>
    if declaredSha = hash c then
      { outcome := .ok, actions := [], networkAccessed := false, finalArchive := some c }
    else
      { outcome := .integrityError declaredSha (hash c), actions := [.removeArchive],
        networkAccessed := false, finalArchive := none }
  | none =>
    -- os.MkdirAll(boxcarsDir), os.Create(tmp), then the HTTP get.
    match response with
    | none =>
      { outcome := .httpGetError, actions := [.createTmp],
        networkAccessed := true, finalArchive := none }
    | some (status, body) =>
      if status ≠ 200 then
        { outcome := .httpStatusError status, actions := [.createTmp],
          networkAccessed := true, finalArchive := none }
      else if declaredSha = hash body then
        { outcome := .ok, actions := [.createTmp, .writeTmp, .renameTmpToArchive],
          networkAccessed := true, finalArchive := some body }
      else
        { outcome := .integrityError declaredSha (hash body),
          actions := [.createTmp, .writeTmp, .removeTmp],
          networkAccessed := true, finalArchive := none }

/-! ## DHCP lease-file scan (findIpAddrFromVmdhcp, hobo.go lines 329-368)

The scanner walks the lease file line by line.  Outside a block it skips
comment lines and enters a block on a line with prefix "lease", remembering
that block's IP (second whitespace-separated field).  Inside a block it
records the block IP whenever the "hardware ethernet" line matches the
target MAC (overwriting earlier matches, never exiting early) and leaves the
block on a bare closing brace.  An empty final result is the distinguished
noIpAddrForMacAddr condition. -/

/-- Scanner position: at the top level, or inside a lease block whose IP is
remembered. -/
inductive ScanMode where
  | top
  | inBlock (leaseIp : GoString)

/-- Embedding of the two nested scanner loops of findIpAddrFromVmdhcp.
acc is the ipAddr variable (none while still empty). -/
def scanLeaseLines (macAddr : GoString) : ScanMode → List GoString → Option GoString → Option GoString
  | _, [], acc => acc
  | .top, l :: ls, acc =>
    let line := goTrimSpace l
    if goHasPre (str "#") line then
      scanLeaseLines macAddr .top ls acc
    else if goHasPre (str "lease") line then
      scanLeaseLines macAddr (.inBlock ((goFields line).getD 1 [])) ls acc
    else
      scanLeaseLines macAddr .top ls acc
  | .inBlock leaseIp, l :: ls, acc =>
    let line := goTrimSpace l
    if goHasPre (str "hardware ethernet") line then
      let leaseMacAddr := goTrimRightSemi ((goFields line).getD 2 [])
      scanLeaseLines macAddr (.inBlock leaseIp) ls
        (if leaseMacAddr = macAddr then some leaseIp else acc)
    else if line = str "\x7d" then
      scanLeaseLines macAddr .top ls acc
    else
      scanLeaseLines macAddr (.inBlock leaseIp) ls acc

/-- Result of one lease-file scan: I/O error (file open failure), the
distinguished no-assignment condition, or a found address. -/
inductive LeaseResult where
  | ioError
  | noIpAddrForMacAddr
  | ok (ip : GoString)
deriving DecidableEq, Repr

/-- Embedding of findIpAddrFromVmdhcp: none for the file means os.Open
failed (a generic I/O error); otherwise the scan runs to completion and an
empty ipAddr becomes the distinguished noIpAddrForMacAddr error. -/
def findIpAddrFromVmdhcp (macAddr : GoString) (leaseFile : Option (List GoString)) : LeaseResult :=
  match leaseFile with
  | none => .ioError
  | some lines =>
    match scanLeaseLines macAddr .top lines none with
    | none => .noIpAddrForMacAddr
    | some ip => .ok ip

/-! ## Lease polling loop (getIpAddrFromVmdhcp, hobo.go lines 281-292)

The loop repeatedly calls findIpAddrFromVmdhcp; on noIpAddrForMacAddr it
sleeps 500ms and retries.  The function takes no context and consults no
deadline.  The loop is modelled against the finite list of scan results
observed so far: none means the loop is still running after consuming all
of them. -/

/-- Embedding of the retry loop in getIpAddrFromVmdhcp over a list of
successive scan outcomes.  A result of none means the loop has not
terminated after all listed iterations. -/
def vmdhcpPollLoop : List LeaseResult → Option (Except Unit GoString)
  | [] => none
  | r :: rs =>
    match r with
    | .noIpAddrForMacAddr => vmdhcpPollLoop rs
    | .ioError => some (.error ())
    | .ok ip => some (.ok ip)

/-! ## Rendered lease blocks, for stating the shadowing property -/

/-- A well-formed lease block: an address and a hardware (MAC) address. -/
structure LeaseBlock where
  ip : GoString
  mac : GoString
deriving DecidableEq, Repr

/-- Render one lease block in the lease-file syntax. -/
def renderBlock (b : LeaseBlock) : List GoString :=
  [str "lease " ++ b.ip ++ str " \x7b",
   str "  hardware ethernet " ++ b.mac ++ str ";",
   str "\x7d"]

/-- Render a whole lease file from a block list. -/
def renderLease (bs : List LeaseBlock) : List GoString :=
  (bs.map renderBlock).flatten

/-- Well-formedness of a block: nonempty IP and MAC made of plain characters
(no whitespace, and no semicolon or brace that would confuse the format). -/
def blockWf (b : LeaseBlock) : Prop :=
  b.ip ≠ [] ∧ b.mac ≠ [] ∧
  (∀ c ∈ b.ip, goIsSpace c = false ∧ c ≠ ';') ∧
  (∀ c ∈ b.mac, goIsSpace c = false ∧ c ≠ ';')

instance (b : LeaseBlock) : Decidable (blockWf b) := by
  unfold blockWf
  infer_instance

/-- The IP of the last block matching the MAC, starting from acc — the
reference result the scanner should compute. -/
def lastMatch (macAddr : GoString) (bs : List LeaseBlock) (acc : Option GoString) : Option GoString :=
  bs.foldl (fun a b => if b.mac = macAddr then some b.ip else a) acc

/-! ## Clone / provisioning pipeline (runClone, hobo.go lines 695-852)

The pipeline is embedded as a chain of stage functions over an environment
of external outcomes, producing the ordered trace of effectful events, a
fatal flag (log.Fatalf fired) and the committed metadata record (some only
when writeConfig succeeded).  The event vocabulary includes the DHCP lease
scan so that its absence from every trace is expressible. -/

/-- Effectful events runClone can perform, in program order. -/
inductive CloneEvent where
  | removeInstanceDir
  | mkdirVmsDir
  | unpackArchive
  | writeUnpackMarker
  | cloneVm
  | generateInstanceKey
  | startVm
  | queryVmtools
  | pollTcp
  | scanDhcpLeases
  | writeBootstrapKey
  | initialSsh
  | installAuthorizedKeys
  | runBootstrapScript
  | writeInstanceConfig
deriving DecidableEq, Repr

/-- The committed instance metadata: the recorded IpAddr and the value of
TimeBootstrapped.IsZero() for the written record. -/
structure CommitRecord where
  ipAddr : GoString
  timeIsZero : Bool
deriving DecidableEq, Repr

/-- Result of a runClone invocation. -/
structure CloneResult where
  events : List CloneEvent
  fatal : Bool
  record : Option CommitRecord
deriving DecidableEq, Repr

/-- Outcomes of the external effects runClone performs, in program order.
vmtoolsResult is the address returned by the first getGuestIPAddress query
(none = query failed); vmtoolsRetryOk is the outcome of the second query
issued when the TCP poll times out (its address is discarded by the code);
bootstrapOutput / bootstrapExecOk describe the remote bootstrap session. -/
structure CloneEnv where
  configFileExists : Bool
  vmxFileExists : Bool
  removeAllOk : Bool
  mkdirOk : Bool
  unpackMarkerExists : Bool
  tarOk : Bool
  markerCreateOk : Bool
  boxcarVmxExists : Bool
  vmrunCloneOk : Bool
  sshKeygenOk : Bool
  vmStartOk : Bool
  vmtoolsResult : Option GoString
  sshReachable : Bool
  vmtoolsRetryOk : Bool
  bootstrapKeyExists : Bool
  bootstrapKeyWriteOk : Bool
  initialSshOk : Bool
  scpOk : Bool
  bootstrapOutput : GoString
  bootstrapExecOk : Bool
  writeConfigOk : Bool
deriving DecidableEq, Repr

/-- Stage: bootstrap execution and commit (lines 832-851).  On a sentinel
match the config is written with IpAddr = ip and TimeBootstrapped = now
(never the zero time); the exec error is overwritten by the writeConfig
result.  On a mismatch no commit happens and the exec error, if any, is
fatal. -/
def stageBootstrap (env : CloneEnv) (ev : List CloneEvent) (ip : GoString) : CloneResult :=
  if bootstrapSentinelOk env.bootstrapOutput then
    if env.writeConfigOk then
      { events := ev ++ [.runBootstrapScript, .writeInstanceConfig], fatal := false,
        record := some { ipAddr := ip, timeIsZero := false } }
    else
      { events := ev ++ [.runBootstrapScript, .writeInstanceConfig], fatal := true,
        record := none }
  else
    { events := ev ++ [.runBootstrapScript], fatal := !env.bootstrapExecOk, record := none }

/-- Stage: install the instance public key in the guest via scp (823-830). -/
def stageScp (env : CloneEnv) (ev : List CloneEvent) (ip : GoString) : CloneResult :=
  if env.scpOk then stageBootstrap env (ev ++ [.installAuthorizedKeys]) ip
  else { events := ev ++ [.installAuthorizedKeys], fatal := true, record := none }

/-- Stage: initial connectivity proof over the shared bootstrap key
(812-821). -/
def stageInitialSsh (env : CloneEnv) (ev : List CloneEvent) (ip : GoString) : CloneResult :=
  if env.initialSshOk then stageScp env (ev ++ [.initialSsh]) ip
  else { events := ev ++ [.initialSsh], fatal := true, record := none }

/-- Stage: ensure the shared insecure bootstrap private key exists on disk
(804-810); it is written only when absent. -/
def stageBootKey (env : CloneEnv) (ev : List CloneEvent) (ip : GoString) : CloneResult :=
  if env.bootstrapKeyExists then stageInitialSsh env ev ip
  else
    if env.bootstrapKeyWriteOk then stageInitialSsh env (ev ++ [.writeBootstrapKey]) ip
    else { events := ev ++ [.writeBootstrapKey], fatal := true, record := none }

/-- Stage: power on and acquire an address (785-802).  getIpAddr on a fresh
instance has an empty recorded IpAddr, so it always queries the guest tools.
waitForSsh gates progress; on timeout a second guest-tools query is issued
and its result discarded. -/
def stageAddr (env : CloneEnv) (ev : List CloneEvent) : CloneResult :=
  if env.vmStartOk then
    match env.vmtoolsResult with
    | none => { events := ev ++ [.startVm, .queryVmtools], fatal := true, record := none }
    | some ip =>
      if env.sshReachable then
        stageBootKey env (ev ++ [.startVm, .queryVmtools, .pollTcp]) ip
      else
        if env.vmtoolsRetryOk then
          stageBootKey env (ev ++ [.startVm, .queryVmtools, .pollTcp, .queryVmtools]) ip
        else
          { events := ev ++ [.startVm, .queryVmtools, .pollTcp, .queryVmtools],
            fatal := true, record := none }
  else { events := ev ++ [.startVm], fatal := true, record := none }

/-- Stage: generate the per-instance login key with ssh-keygen (773-782).
The preceding TimeBootstrapped.IsZero() guard passes because the fresh
in-memory config has the zero time. -/
def stageKeygen (env : CloneEnv) (ev : List CloneEvent) : CloneResult :=
  if env.sshKeygenOk then stageAddr env (ev ++ [.generateInstanceKey])
  else { events := ev ++ [.generateInstanceKey], fatal := true, record := none }

/-- Stage: full clone of the boxcar vmx into the instance path (759-767). -/
def stageClone (env : CloneEnv) (ev : List CloneEvent) : CloneResult :=
  if env.vmrunCloneOk then stageKeygen env (ev ++ [.cloneVm])
  else { events := ev ++ [.cloneVm], fatal := true, record := none }

/-- Stage: the unpacked boxcar must expose its vmx descriptor (751-757). -/
def stageBoxcarVmx (env : CloneEnv) (ev : List CloneEvent) : CloneResult :=
  if env.boxcarVmxExists then stageClone env ev
  else { events := ev, fatal := true, record := none }

/-- Stage: unpack the archive unless the unpack marker already exists
(731-750); after extraction the marker file is created. -/
def stageUnpack (env : CloneEnv) (ev : List CloneEvent) : CloneResult :=
  if env.unpackMarkerExists then stageBoxcarVmx env ev
  else
    if env.tarOk then
      if env.markerCreateOk then
        stageBoxcarVmx env (ev ++ [.unpackArchive, .writeUnpackMarker])
      else
        { events := ev ++ [.unpackArchive, .writeUnpackMarker], fatal := true, record := none }
    else { events := ev ++ [.unpackArchive], fatal := true, record := none }

/-- Stage: create the vms directory (717-719). -/
def stageMkdir (env : CloneEnv) (ev : List CloneEvent) : CloneResult :=
  if env.mkdirOk then stageUnpack env (ev ++ [.mkdirVmsDir])
  else { events := ev ++ [.mkdirVmsDir], fatal := true, record := none }

/-- Embedding of runClone (695-852).  The guard (704-715): an existing
committed config file aborts before any action; a vmx file without a config
purges the whole instance directory before proceeding. -/
def runCloneModel (env : CloneEnv) : CloneResult :=
  if env.configFileExists then { events := [], fatal := true, record := none }
  else if env.vmxFileExists then
    if env.removeAllOk then stageMkdir env [.removeInstanceDir]
    else { events := [.removeInstanceDir], fatal := true, record := none }
  else stageMkdir env []

/-- The address-acquisition events among the clone events. -/
def isAddrEvent (e : CloneEvent) : Bool :=
  e = .queryVmtools ∨ e = .pollTcp ∨ e = .scanDhcpLeases

/-- Success condition from the bootstrap-execution stage on: the sentinel
matches and the config write succeeds. -/
def condBootstrap (env : CloneEnv) : Bool :=
  bootstrapSentinelOk env.bootstrapOutput && env.writeConfigOk

/-- Success condition from the scp stage on. -/
def condScp (env : CloneEnv) : Bool := env.scpOk && condBootstrap env

/-- Success condition from the initial-ssh stage on. -/
def condInitialSsh (env : CloneEnv) : Bool := env.initialSshOk && condScp env

/-- Success condition from the bootstrap-key stage on. -/
def condBootKey (env : CloneEnv) : Bool :=
  (env.bootstrapKeyExists || env.bootstrapKeyWriteOk) && condInitialSsh env

/-- Success condition from the power-on/address stage on, apart from the
guest-tools query itself delivering an address. -/
def condAddr (env : CloneEnv) : Bool :=
  env.vmStartOk && ((env.sshReachable || env.vmtoolsRetryOk) && condBootKey env)

/-- Success condition from the keygen stage on. -/
def condKeygen (env : CloneEnv) : Bool := env.sshKeygenOk && condAddr env

/-- Success condition from the clone stage on. -/
def condClone (env : CloneEnv) : Bool := env.vmrunCloneOk && condKeygen env

/-- Success condition from the boxcar-vmx check on. -/
def condBoxcar (env : CloneEnv) : Bool := env.boxcarVmxExists && condClone env

/-- Success condition from the unpack stage on. -/
def condUnpack (env : CloneEnv) : Bool :=
  (env.unpackMarkerExists || (env.tarOk && env.markerCreateOk)) && condBoxcar env

/-- Success condition from the mkdir stage on. -/
def condMkdir (env : CloneEnv) : Bool := env.mkdirOk && condUnpack env

/-- Success of every stage of the pipeline, guard included, apart from the
guest-tools query delivering an address. -/
def clonePipelineOk (env : CloneEnv) : Bool :=
  !env.configFileExists && ((!env.vmxFileExists || env.removeAllOk) && condMkdir env)

/-- The fixed master order of clone events: every run's trace is a sublist
of this list. -/
def masterEvents : List CloneEvent :=
  [.removeInstanceDir, .mkdirVmsDir, .unpackArchive, .writeUnpackMarker, .cloneVm,
   .generateInstanceKey, .startVm, .queryVmtools, .pollTcp, .queryVmtools,
   .writeBootstrapKey, .initialSsh, .installAuthorizedKeys, .runBootstrapScript,
   .writeInstanceConfig]

/-- A fully successful environment: no pre-existing instance, every external
step succeeds, the guest reports an address, ssh becomes reachable, and the
bootstrap output ends with the sentinel. -/
def envHappy : CloneEnv where
  configFileExists := false
  vmxFileExists := false
  removeAllOk := true
  mkdirOk := true
  unpackMarkerExists := true
  tarOk := true
  markerCreateOk := true
  boxcarVmxExists := true
  vmrunCloneOk := true
  sshKeygenOk := true
  vmStartOk := true
  vmtoolsResult := some (str "192.168.254.10")
  sshReachable := true
  vmtoolsRetryOk := true
  bootstrapKeyExists := true
  bootstrapKeyWriteOk := true
  initialSshOk := true
  scpOk := true
  bootstrapOutput := str "hobo-bootstrap-ok"
  bootstrapExecOk := true
  writeConfigOk := true

/-- As envHappy, but the TCP reachability poll times out, so address
resolution via the tools query stalls. -/
def envStalled : CloneEnv := { envHappy with sshReachable := false }

/-- As envHappy, but a committed instance config file already exists. -/
def envExisting : CloneEnv := { envHappy with configFileExists := true }

/-- As envHappy, but a vmx file is present without a committed config. -/
def envPartial : CloneEnv := { envHappy with vmxFileExists := true }

/-! ## SSH option arguments (sshConfigMap / sshConfigArgs, hobo.go 370-394)

sshConfigMap returns a fixed literal map; sshConfigArgs formats each entry
as "-oKey=Value" in whatever order map iteration yields, then sorts with
sort.Strings.  Map iteration order is modelled as an arbitrary permutation
of the literal entry list. -/

/-- The literal entries of sshConfigMap, in source order. -/
def sshConfigPairs : List (String × String) :=
  [("ConnectTimeout", "1"),
   ("ForwardAgent", "yes"),
   ("IdentitiesOnly", "yes"),
   ("LogLevel", "error"),
   ("PasswordAuthentication", "no"),
   ("ProxyCommand", "none"),
   ("StrictHostKeyChecking", "no"),
   ("UserKnownHostsFile", "/dev/null")]

/-- Formatting of one entry: "-o" + k + "=" + v. -/
def sshOptArg (kv : String × String) : String :=
  "-o" ++ kv.1 ++ "=" ++ kv.2

/-- sshConfigArgs as computed from a given map-iteration order: format every
entry, then sort.Strings the result. -/
def sshConfigArgsFrom (iter : List (String × String)) : List String :=
  (iter.map sshOptArg).mergeSort

/-- The canonical argument list, computed from the source-order entries. -/
def sshConfigArgs : List String := sshConfigArgsFrom sshConfigPairs

/-! ## Helper lemmas -/

/-- Splitting on a character always yields at least one piece, exactly as
Go's strings.Split does. -/
theorem goSplitChar_ne_nil (sep : Char) (s : GoString) : goSplitChar sep s ≠ [] := by
  induction s with
  | nil => simp [goSplitChar]
  | cons c s ih =>
    simp only [goSplitChar]
    split
    · simp
    · cases h : goSplitChar sep s with
      | nil => exact absurd h ih
      | cons l ls => simp

/-- Trimming an all-whitespace string yields the empty string. -/
theorem goTrimSpace_eq_nil (s : GoString) (h : ∀ c ∈ s, goIsSpace c = true) :
    goTrimSpace s = [] := by
  unfold goTrimSpace
  have h1 : s.dropWhile goIsSpace = [] := List.dropWhile_eq_nil_iff.mpr h
  simp [h1]

/-- dropWhile keeps a list none of whose elements satisfy the test. -/
theorem dropWhile_all_false (p : Char → Bool) (l : GoString) (h : ∀ c ∈ l, p c = false) :
    l.dropWhile p = l := by
  cases l with
  | nil => rfl
  | cons c cs => simp [List.dropWhile_cons, h c (by simp)]

/-- dropWhile discards a leading run of elements satisfying the test. -/
theorem dropWhile_append_all_true (p : Char → Bool) (lead x : GoString)
    (h : ∀ c ∈ lead, p c = true) : (lead ++ x).dropWhile p = x.dropWhile p := by
  induction lead with
  | nil => rfl
  | cons c cs ih =>
    simp [List.dropWhile_cons, h c (by simp), ih (fun d hd => h d (by simp [hd]))]

/-- A string with non-space first and last characters is unchanged by
goTrimSpace. -/
theorem goTrimSpace_bounded (c d : Char) (mid : GoString)
    (hc : goIsSpace c = false) (hd : goIsSpace d = false) :
    goTrimSpace (c :: (mid ++ [d])) = c :: (mid ++ [d]) := by
  unfold goTrimSpace
  have h1 : List.dropWhile goIsSpace (c :: (mid ++ [d])) = c :: (mid ++ [d]) := by
    simp [List.dropWhile_cons, hc]
  rw [h1]
  have h2 : (c :: (mid ++ [d])).reverse = d :: (mid.reverse ++ [c]) := by simp
  rw [h2]
  have h3 : List.dropWhile goIsSpace (d :: (mid.reverse ++ [c])) = d :: (mid.reverse ++ [c]) := by
    simp [List.dropWhile_cons, hd]
  rw [h3]
  simp

/-- goTrimSpace drops leading whitespace and keeps a body with non-space
first and last characters. -/
theorem goTrimSpace_leading (lead : GoString) (c d : Char) (mid : GoString)
    (hl : ∀ x ∈ lead, goIsSpace x = true)
    (hc : goIsSpace c = false) (hd : goIsSpace d = false) :
    goTrimSpace (lead ++ c :: (mid ++ [d])) = c :: (mid ++ [d]) := by
  unfold goTrimSpace
  rw [dropWhile_append_all_true goIsSpace lead _ hl]
  have h1 : List.dropWhile goIsSpace (c :: (mid ++ [d])) = c :: (mid ++ [d]) := by
    simp [List.dropWhile_cons, hc]
  rw [h1]
  have h2 : (c :: (mid ++ [d])).reverse = d :: (mid.reverse ++ [c]) := by simp
  rw [h2]
  have h3 : List.dropWhile goIsSpace (d :: (mid.reverse ++ [c])) = d :: (mid.reverse ++ [c]) := by
    simp [List.dropWhile_cons, hd]
  rw [h3]
  simp

/-- goFieldsAux accumulates a run of non-space characters in reverse. -/
theorem goFieldsAux_nonspace (w : GoString) (hw : ∀ c ∈ w, goIsSpace c = false)
    (s acc : GoString) :
    goFieldsAux (w ++ s) acc = goFieldsAux s (w.reverse ++ acc) := by
  induction w generalizing acc with
  | nil => simp
  | cons c cs ih =>
    have hc : goIsSpace c = false := hw c (by simp)
    have hw2 : ∀ x ∈ cs, goIsSpace x = false := fun x hx => hw x (by simp [hx])
    simp [goFieldsAux, hc, ih hw2]

/-- goFieldsAux emits the accumulated field at a space. -/
theorem goFieldsAux_emit (c : Char) (hc : goIsSpace c = true) (s acc : GoString)
    (ha : acc ≠ []) :
    goFieldsAux (c :: s) acc = acc.reverse :: goFieldsAux s [] := by
  cases acc with
  | nil => exact absurd rfl ha
  | cons a as => simp [goFieldsAux, hc]

/-- goFieldsAux emits the final accumulated field at the end of input. -/
theorem goFieldsAux_last (acc : GoString) (ha : acc ≠ []) :
    goFieldsAux [] acc = [acc.reverse] := by
  cases acc with
  | nil => exact absurd rfl ha
  | cons a as => simp [goFieldsAux]

/-- goFields of three space-separated nonempty words. -/
theorem goFields_three (w1 w2 w3 : GoString)
    (h1 : ∀ c ∈ w1, goIsSpace c = false) (h2 : ∀ c ∈ w2, goIsSpace c = false)
    (h3 : ∀ c ∈ w3, goIsSpace c = false)
    (n1 : w1 ≠ []) (n2 : w2 ≠ []) (n3 : w3 ≠ []) :
    goFields (w1 ++ ' ' :: (w2 ++ ' ' :: w3)) = [w1, w2, w3] := by
  unfold goFields
  rw [goFieldsAux_nonspace w1 h1]
  rw [goFieldsAux_emit ' ' (by decide) _ _ (by simp [n1])]
  rw [goFieldsAux_nonspace w2 h2]
  rw [goFieldsAux_emit ' ' (by decide) _ _ (by simp [n2])]
  have hw3 : w3 = w3 ++ [] := by simp
  rw [hw3, goFieldsAux_nonspace w3 h3]
  rw [goFieldsAux_last _ (by simp [n3])]
  simp

/-- Stripping the trailing semicolon from a rendered hardware address. -/
theorem goTrimRightSemi_strip (mac : GoString) (h : ∀ c ∈ mac, c ≠ ';') :
    goTrimRightSemi (mac ++ [';']) = mac := by
  unfold goTrimRightSemi
  rw [List.reverse_append]
  have h1 : List.dropWhile (fun c => decide (c = ';')) ([';'].reverse ++ mac.reverse) =
      List.dropWhile (fun c => decide (c = ';')) mac.reverse := by
    simp [List.dropWhile_cons]
  rw [h1]
  rw [dropWhile_all_false _ _ (fun c hc => by simp [h c (List.mem_reverse.mp hc)])]
  simp

/-- A list is a prefix-test match of itself followed by anything. -/
theorem goHasPre_append (p t : GoString) : goHasPre p (p ++ t) = true := by
  induction p with
  | nil => simp [goHasPre, List.isPrefixOf]
  | cons c cs ih => simpa [goHasPre, List.isPrefixOf] using ih

/-- Scanning one rendered lease block updates the remembered address exactly
when the block's hardware address matches, then continues at the top level:
the scanner overwrites rather than stopping at the first match. -/
theorem scan_renderBlock (mac : GoString) (b : LeaseBlock) (rest : List GoString)
    (acc : Option GoString) (hb : blockWf b) :
    scanLeaseLines mac .top (renderBlock b ++ rest) acc =
      scanLeaseLines mac .top rest (if b.mac = mac then some b.ip else acc) := by
  obtain ⟨hip, hmac, hipc, hmacc⟩ := hb
  have ip1 : ∀ c ∈ b.ip, goIsSpace c = false := fun c hc => (hipc c hc).1
  have mac1 : ∀ c ∈ b.mac, goIsSpace c = false := fun c hc => (hmacc c hc).1
  have l1shape : str "lease " ++ b.ip ++ str " \x7b" =
      'l' :: ((str "ease " ++ b.ip ++ [' ']) ++ ['\x7b']) := by
    have h0 : str "lease " = 'l' :: str "ease " := rfl
    simp [h0, str, List.append_assoc]
  have e1 : goTrimSpace (str "lease " ++ b.ip ++ str " \x7b") =
      str "lease " ++ b.ip ++ str " \x7b" := by
    rw [l1shape, goTrimSpace_bounded 'l' '\x7b' _ (by decide) (by decide)]
  have e2 : goHasPre (str "#") (str "lease " ++ b.ip ++ str " \x7b") = false := by
    have h0 : str "lease " ++ b.ip ++ str " \x7b" =
        'l' :: (str "ease " ++ b.ip ++ str " \x7b") := by
      have h1 : str "lease " = 'l' :: str "ease " := rfl
      simp [h1, List.append_assoc]
    rw [h0]
    simp [goHasPre, List.isPrefixOf]
  have e3 : goHasPre (str "lease") (str "lease " ++ b.ip ++ str " \x7b") = true := by
    have h0 : str "lease " ++ b.ip ++ str " \x7b" =
        str "lease" ++ (' ' :: (b.ip ++ str " \x7b")) := by
      have h1 : str "lease " = str "lease" ++ [' '] := rfl
      simp [h1, List.append_assoc]
    rw [h0]
    exact goHasPre_append _ _
  have e4 : (goFields (str "lease " ++ b.ip ++ str " \x7b")).getD 1 [] = b.ip := by
    have h0 : str "lease " ++ b.ip ++ str " \x7b" =
        str "lease" ++ ' ' :: (b.ip ++ ' ' :: str "\x7b") := by
      have h1 : str "lease " = str "lease" ++ [' '] := rfl
      have h2 : str " \x7b" = ' ' :: str "\x7b" := rfl
      simp [h1, h2, List.append_assoc]
    rw [h0, goFields_three (str "lease") b.ip (str "\x7b")
      (by decide) ip1 (by decide) (by decide) hip (by decide)]
    rfl
  have f1 : goTrimSpace (str "  hardware ethernet " ++ b.mac ++ str ";") =
      str "hardware ethernet " ++ b.mac ++ str ";" := by
    have h0 : str "  hardware ethernet " ++ b.mac ++ str ";" =
        [' ', ' '] ++ ('h' :: ((str "ardware ethernet " ++ b.mac) ++ [';'])) := by
      have h1 : str "  hardware ethernet " = ' ' :: ' ' :: 'h' :: str "ardware ethernet " := rfl
      have h2 : str ";" = [';'] := rfl
      simp [h1, h2, List.append_assoc]
    have h3 : str "hardware ethernet " ++ b.mac ++ str ";" =
        'h' :: ((str "ardware ethernet " ++ b.mac) ++ [';']) := by
      have h1 : str "hardware ethernet " = 'h' :: str "ardware ethernet " := rfl
      have h2 : str ";" = [';'] := rfl
      simp [h1, h2, List.append_assoc]
    rw [h0, h3, goTrimSpace_leading [' ', ' '] 'h' ';' _ (by decide) (by decide) (by decide)]
  have f2 : goHasPre (str "hardware ethernet")
      (str "hardware ethernet " ++ b.mac ++ str ";") = true := by
    have h0 : str "hardware ethernet " ++ b.mac ++ str ";" =
        str "hardware ethernet" ++ (' ' :: (b.mac ++ str ";")) := by
      have h1 : str "hardware ethernet " = str "hardware ethernet" ++ [' '] := rfl
      simp [h1, List.append_assoc]
    rw [h0]
    exact goHasPre_append _ _
  have f3 : goTrimRightSemi
      ((goFields (str "hardware ethernet " ++ b.mac ++ str ";")).getD 2 []) = b.mac := by
    have h0 : str "hardware ethernet " ++ b.mac ++ str ";" =
        str "hardware" ++ ' ' :: (str "ethernet" ++ ' ' :: (b.mac ++ [';'])) := by
      have h1 : str "hardware ethernet " =
          str "hardware" ++ ' ' :: (str "ethernet" ++ [' ']) := rfl
      have h2 : str ";" = [';'] := rfl
      simp [h1, h2, List.append_assoc]
    have hw3 : ∀ c ∈ b.mac ++ [';'], goIsSpace c = false := by
      intro c hc
      rcases List.mem_append.mp hc with h4 | h4
      · exact mac1 c h4
      · simp at h4
        subst h4
        decide
    rw [h0, goFields_three (str "hardware") (str "ethernet") (b.mac ++ [';'])
      (by decide) (by decide) hw3 (by decide) (by decide) (by simp)]
    have h5 : ([str "hardware", str "ethernet", b.mac ++ [';']]).getD 2 [] = b.mac ++ [';'] := rfl
    rw [h5, goTrimRightSemi_strip b.mac (fun c hc => (hmacc c hc).2)]
  have g1 : goTrimSpace (str "\x7d") = str "\x7d" := by decide
  have g2 : goHasPre (str "hardware ethernet") (str "\x7d") = false := by decide
  simp only [renderBlock, List.cons_append, List.nil_append]
  simp only [scanLeaseLines]
  rw [e1, f1, g1]
  simp only [e2, e3, f2, f3, g2, e4]
  simp

/-- Scanning a whole rendered lease file computes the last matching
block's address (later blocks shadow earlier ones). -/
theorem scan_renderLease (mac : GoString) (bs : List LeaseBlock) (acc : Option GoString)
    (h : ∀ b ∈ bs, blockWf b) :
    scanLeaseLines mac .top (renderLease bs) acc = lastMatch mac bs acc := by
  induction bs generalizing acc with
  | nil => simp [renderLease, lastMatch, scanLeaseLines]
  | cons b bs ih =>
    have hb : blockWf b := h b (by simp)
    have hbs : ∀ x ∈ bs, blockWf x := fun x hx => h x (by simp [hx])
    have hr : renderLease (b :: bs) = renderBlock b ++ renderLease bs := by
      simp [renderLease]
    rw [hr, scan_renderBlock mac b _ acc hb,
      ih (if b.mac = mac then some b.ip else acc) hbs]
    rfl

end Hobo

namespace Hobo

/-! ## Theorems for the claims -/

/-- C9: the bootstrap output split always has at least one line, so the
last-line index is in range; and empty or all-whitespace remote output is
classified as bootstrap failure, since its last line is not the sentinel. -/
theorem bootstrap_lastline_total (out : GoString) :
    (bootstrapOutLines out).length - 1 < (bootstrapOutLines out).length ∧
    ((∀ c ∈ out, goIsSpace c = true) → bootstrapSentinelOk out = false) := by
  constructor
  · have h := goSplitChar_ne_nil '\n' (goTrimSpace out)
    have : 0 < (bootstrapOutLines out).length := by
      unfold bootstrapOutLines
      exact List.length_pos.mpr h
    omega
  · intro h
    have ht : goTrimSpace out = [] := goTrimSpace_eq_nil out h
    unfold bootstrapSentinelOk lastOutLine bootstrapOutLines
    rw [ht]
    decide

/-- C9 witness: the totality theorem applied to a concrete all-whitespace
output. -/
theorem bootstrap_lastline_total_witness :
    (bootstrapOutLines (str " \n \t ")).length - 1 < (bootstrapOutLines (str " \n \t ")).length ∧
    bootstrapSentinelOk (str " \n \t ") = false :=
  ⟨(bootstrap_lastline_total (str " \n \t ")).1,
   (bootstrap_lastline_total (str " \n \t ")).2 (by decide)⟩

/-- C1 counterexample: with a non-zero remote exit status (execOk = false)
and the sentinel as the last output line, runClone still writes the config
and does not abort — the exit code does not gate the classification, the
run is treated as a success. -/
theorem bootstrap_nonzero_exit_commits :
    bootstrapStage (str "hobo-bootstrap-ok") false true =
      { committed := true, fatal := false } := by decide

/-- C1 amended: the bootstrap run commits (is classified a success) exactly
when the trimmed last output line equals the sentinel and the config write
succeeds; the remote exit status plays no part in the decision. -/
theorem bootstrap_commit_iff_sentinel (out : GoString) (execOk writeOk : Bool) :
    (bootstrapStage out execOk writeOk).committed = (bootstrapSentinelOk out && writeOk) := by
  unfold bootstrapStage
  split <;> simp_all

/-- C3: with the canonical artifact already present, fetch hashes the cached
content and performs no network access: on a digest match it returns
immediately leaving the cache untouched, on a mismatch it deletes the cached
file and fails with the integrity error; and a fetch that just downloaded
successfully leaves a cache on which a second fetch performs no transfer. -/
theorem fetch_cached_idempotent {α : Type} (hash : α → String) (declared : String)
    (c : α) (resp resp2 : Option (Nat × α)) :
    (declared = hash c →
      runFetchModel hash declared (some c) resp =
        { outcome := .ok, actions := [], networkAccessed := false, finalArchive := some c }) ∧
    (declared ≠ hash c →
      runFetchModel hash declared (some c) resp =
        { outcome := .integrityError declared (hash c), actions := [.removeArchive],
          networkAccessed := false, finalArchive := none }) ∧
    runFetchModel hash (hash c)
        ((runFetchModel hash (hash c) none (some (200, c))).finalArchive) resp2 =
      { outcome := .ok, actions := [], networkAccessed := false, finalArchive := some c } := by
  refine ⟨fun h => by simp [runFetchModel, h], fun h => by simp [runFetchModel, h], ?_⟩
  simp [runFetchModel]

/-- C3 witness: the cached cases at concrete digests (match and mismatch)
and the no-transfer second fetch. -/
theorem fetch_cached_idempotent_witness :
    runFetchModel (fun s : String => s) "d" (some "d") none =
      { outcome := .ok, actions := [], networkAccessed := false, finalArchive := some "d" } ∧
    runFetchModel (fun s : String => s) "d" (some "x") none =
      { outcome := .integrityError "d" "x", actions := [.removeArchive],
        networkAccessed := false, finalArchive := none } ∧
    runFetchModel (fun s : String => s) "d"
        ((runFetchModel (fun s : String => s) "d" none (some (200, "d"))).finalArchive) none =
      { outcome := .ok, actions := [], networkAccessed := false, finalArchive := some "d" } :=
  ⟨(fetch_cached_idempotent (fun s : String => s) "d" "d" none none).1 rfl,
   (fetch_cached_idempotent (fun s : String => s) "d" "x" none none).2.1 (by decide),
   (fetch_cached_idempotent (fun s : String => s) "d" "d" none none).2.2⟩

/-- C4: a download never writes the canonical name directly — the temp-file
name differs from the final name, the canonical file is never removed in the
download branch, the canonical path gains content exactly when the rename
action runs, and after a download the fetch deletes the temp file and
reports both digests on a mismatch, or renames the temp file into place on a
match. -/
theorem fetch_download_writes_tmp {α : Type} (hash : α → String) (declared base : String)
    (nanos : Nat) (body : α) (resp : Option (Nat × α)) :
    (archiveTmpName base nanos == base) = false ∧
    ((runFetchModel hash declared none resp).actions.contains .removeArchive) = false ∧
    ((runFetchModel hash declared none resp).finalArchive.isSome =
      (runFetchModel hash declared none resp).actions.contains .renameTmpToArchive) ∧
    runFetchModel hash declared none (some (200, body)) =
      (if declared = hash body then
        { outcome := .ok, actions := [.createTmp, .writeTmp, .renameTmpToArchive],
          networkAccessed := true, finalArchive := some body }
       else
        { outcome := .integrityError declared (hash body),
          actions := [.createTmp, .writeTmp, .removeTmp],
          networkAccessed := true, finalArchive := none }) := by
  refine ⟨?_, ?_, ?_, ?_⟩
  · rw [beq_eq_false_iff_ne]
    intro h
    have hlen := congrArg String.length h
    have h1 : String.length "." = 1 := rfl
    have h2 : String.length "-" = 1 := rfl
    simp only [archiveTmpName, String.length_append, h1, h2] at hlen
    omega
  · rcases resp with _ | ⟨status, b⟩
    · simp [runFetchModel]
    · by_cases hs : status = 200 <;> by_cases hd : declared = hash b <;>
        simp [runFetchModel, hs, hd]
  · rcases resp with _ | ⟨status, b⟩
    · simp [runFetchModel]
    · by_cases hs : status = 200 <;> by_cases hd : declared = hash b <;>
        simp [runFetchModel, hs, hd]
  · by_cases hd : declared = hash body <;> simp [runFetchModel, hd]

/-- C7 counterexample: after 240 consecutive scans reporting the
no-assignment condition (two minutes of polling at the 500ms interval, past
any ordinary invocation deadline), the lease polling loop is still running —
it does not consult a deadline. -/
theorem vmdhcp_poll_ignores_deadline :
    vmdhcpPollLoop (List.replicate 240 .noIpAddrForMacAddr) = none := by rfl

/-- C7 amended: the lease-scan polling loop consults no deadline at all: for
every number of iterations, if the scan keeps reporting the no-assignment
condition the loop is still retrying — it never terminates on its own, no
matter how much time (or any attached deadline) has elapsed. -/
theorem vmdhcp_poll_no_deadline (n : Nat) :
    vmdhcpPollLoop (List.replicate n .noIpAddrForMacAddr) = none := by
  induction n with
  | zero => rfl
  | succ n ih => simpa [List.replicate_succ, vmdhcpPollLoop] using ih

/-- C10: the ssh option arguments are deterministic — every map iteration
order (any permutation of the literal entries) produces the same sorted
argument list. -/
theorem sshConfigArgs_deterministic (iter : List (String × String))
    (h : iter.Perm sshConfigPairs) :
    sshConfigArgsFrom iter = sshConfigArgs := by
  unfold sshConfigArgsFrom sshConfigArgs
  apply List.eq_of_perm_of_sorted (r := (· ≤ ·))
  · exact ((List.mergeSort_perm _ _).trans ((h.map sshOptArg).trans
      (List.mergeSort_perm _ _).symm))
  · exact List.sorted_mergeSort' _
  · exact List.sorted_mergeSort' _

/-- C10 witness: the reversed iteration order yields the canonical argument
list. -/
theorem sshConfigArgs_deterministic_witness :
    sshConfigArgsFrom sshConfigPairs.reverse = sshConfigArgs :=
  sshConfigArgs_deterministic sshConfigPairs.reverse (List.reverse_perm sshConfigPairs)

/-! ### Per-stage characterization of the committed record -/

/-- The bootstrap stage commits exactly when the sentinel matches and the
config write succeeds. -/
theorem stageBootstrap_record (env : CloneEnv) (ev : List CloneEvent) (ip : GoString) :
    (stageBootstrap env ev ip).record =
      (if condBootstrap env then some { ipAddr := ip, timeIsZero := false } else none) := by
  by_cases h1 : bootstrapSentinelOk env.bootstrapOutput <;> by_cases h2 : env.writeConfigOk <;>
    simp [stageBootstrap, condBootstrap, h1, h2]

/-- Record characterization from the scp stage on. -/
theorem stageScp_record (env : CloneEnv) (ev : List CloneEvent) (ip : GoString) :
    (stageScp env ev ip).record =
      (if condScp env then some { ipAddr := ip, timeIsZero := false } else none) := by
  by_cases h : env.scpOk <;> simp [stageScp, condScp, stageBootstrap_record, h]

/-- Record characterization from the initial-ssh stage on. -/
theorem stageInitialSsh_record (env : CloneEnv) (ev : List CloneEvent) (ip : GoString) :
    (stageInitialSsh env ev ip).record =
      (if condInitialSsh env then some { ipAddr := ip, timeIsZero := false } else none) := by
  by_cases h : env.initialSshOk <;> simp [stageInitialSsh, condInitialSsh, stageScp_record, h]

/-- Record characterization from the bootstrap-key stage on. -/
theorem stageBootKey_record (env : CloneEnv) (ev : List CloneEvent) (ip : GoString) :
    (stageBootKey env ev ip).record =
      (if condBootKey env then some { ipAddr := ip, timeIsZero := false } else none) := by
  by_cases h1 : env.bootstrapKeyExists <;> by_cases h2 : env.bootstrapKeyWriteOk <;>
    simp [stageBootKey, condBootKey, stageInitialSsh_record, h1, h2]

/-- Record characterization from the power-on/address stage on: the record
carries the first guest-tools address. -/
theorem stageAddr_record (env : CloneEnv) (ev : List CloneEvent) :
    (stageAddr env ev).record =
      (if condAddr env then
        env.vmtoolsResult.map (fun ip => { ipAddr := ip, timeIsZero := false })
       else none) := by
  cases hvt : env.vmtoolsResult <;> by_cases h1 : env.vmStartOk <;>
    by_cases h2 : env.sshReachable <;> by_cases h3 : env.vmtoolsRetryOk <;>
      simp [stageAddr, condAddr, stageBootKey_record, hvt, h1, h2, h3]

/-- Record characterization from the keygen stage on. -/
theorem stageKeygen_record (env : CloneEnv) (ev : List CloneEvent) :
    (stageKeygen env ev).record =
      (if condKeygen env then
        env.vmtoolsResult.map (fun ip => { ipAddr := ip, timeIsZero := false })
       else none) := by
  by_cases h : env.sshKeygenOk <;> simp [stageKeygen, condKeygen, stageAddr_record, h]

/-- Record characterization from the clone stage on. -/
theorem stageClone_record (env : CloneEnv) (ev : List CloneEvent) :
    (stageClone env ev).record =
      (if condClone env then
        env.vmtoolsResult.map (fun ip => { ipAddr := ip, timeIsZero := false })
       else none) := by
  by_cases h : env.vmrunCloneOk <;> simp [stageClone, condClone, stageKeygen_record, h]

/-- Record characterization from the boxcar-vmx check on. -/
theorem stageBoxcarVmx_record (env : CloneEnv) (ev : List CloneEvent) :
    (stageBoxcarVmx env ev).record =
      (if condBoxcar env then
        env.vmtoolsResult.map (fun ip => { ipAddr := ip, timeIsZero := false })
       else none) := by
  by_cases h : env.boxcarVmxExists <;> simp [stageBoxcarVmx, condBoxcar, stageClone_record, h]

/-- Record characterization from the unpack stage on. -/
theorem stageUnpack_record (env : CloneEnv) (ev : List CloneEvent) :
    (stageUnpack env ev).record =
      (if condUnpack env then
        env.vmtoolsResult.map (fun ip => { ipAddr := ip, timeIsZero := false })
       else none) := by
  by_cases h1 : env.unpackMarkerExists <;> by_cases h2 : env.tarOk <;>
    by_cases h3 : env.markerCreateOk <;>
      simp [stageUnpack, condUnpack, stageBoxcarVmx_record, h1, h2, h3]

/-- Record characterization from the mkdir stage on. -/
theorem stageMkdir_record (env : CloneEnv) (ev : List CloneEvent) :
    (stageMkdir env ev).record =
      (if condMkdir env then
        env.vmtoolsResult.map (fun ip => { ipAddr := ip, timeIsZero := false })
       else none) := by
  by_cases h : env.mkdirOk <;> simp [stageMkdir, condMkdir, stageUnpack_record, h]

/-! ### Per-stage bound on the emitted events -/

/-- Appending a common prefix preserves sublists. -/
theorem sublist_append_both (ev a b : List CloneEvent) (h : List.Sublist a b) :
    List.Sublist (ev ++ a) (ev ++ b) :=
  h.append_left ev

/-- Bootstrap-stage events are a sublist of the master tail. -/
theorem stageBootstrap_events_sub (env : CloneEnv) (ev : List CloneEvent) (ip : GoString) :
    List.Sublist (stageBootstrap env ev ip).events
      (ev ++ [.runBootstrapScript, .writeInstanceConfig]) := by
  unfold stageBootstrap
  split
  · split
    · exact sublist_append_both ev _ _ (by decide)
    · exact sublist_append_both ev _ _ (by decide)
  · exact sublist_append_both ev _ _ (by decide)

/-- Scp-stage events are a sublist of the master tail. -/
theorem stageScp_events_sub (env : CloneEnv) (ev : List CloneEvent) (ip : GoString) :
    List.Sublist (stageScp env ev ip).events
      (ev ++ [.installAuthorizedKeys, .runBootstrapScript, .writeInstanceConfig]) := by
  unfold stageScp
  split
  · refine (stageBootstrap_events_sub env (ev ++ [.installAuthorizedKeys]) ip).trans ?_
    rw [List.append_assoc] <;> exact sublist_append_both ev _ _ (by decide)
  · exact sublist_append_both ev _ _ (by decide)

/-- Initial-ssh-stage events are a sublist of the master tail. -/
theorem stageInitialSsh_events_sub (env : CloneEnv) (ev : List CloneEvent) (ip : GoString) :
    List.Sublist (stageInitialSsh env ev ip).events
      (ev ++ [.initialSsh, .installAuthorizedKeys, .runBootstrapScript,
              .writeInstanceConfig]) := by
  unfold stageInitialSsh
  split
  · refine (stageScp_events_sub env (ev ++ [.initialSsh]) ip).trans ?_
    rw [List.append_assoc] <;> exact sublist_append_both ev _ _ (by decide)
  · exact sublist_append_both ev _ _ (by decide)

/-- Bootstrap-key-stage events are a sublist of the master tail. -/
theorem stageBootKey_events_sub (env : CloneEnv) (ev : List CloneEvent) (ip : GoString) :
    List.Sublist (stageBootKey env ev ip).events
      (ev ++ [.writeBootstrapKey, .initialSsh, .installAuthorizedKeys, .runBootstrapScript,
              .writeInstanceConfig]) := by
  unfold stageBootKey
  split
  · refine (stageInitialSsh_events_sub env ev ip).trans ?_
    exact sublist_append_both ev _ _ (by decide)
  · split
    · refine (stageInitialSsh_events_sub env (ev ++ [.writeBootstrapKey]) ip).trans ?_
      rw [List.append_assoc] <;> exact sublist_append_both ev _ _ (by decide)
    · exact sublist_append_both ev _ _ (by decide)

/-- Power-on/address-stage events are a sublist of the master tail. -/
theorem stageAddr_events_sub (env : CloneEnv) (ev : List CloneEvent) :
    List.Sublist (stageAddr env ev).events
      (ev ++ [.startVm, .queryVmtools, .pollTcp, .queryVmtools,
              .writeBootstrapKey, .initialSsh, .installAuthorizedKeys, .runBootstrapScript,
              .writeInstanceConfig]) := by
  unfold stageAddr
  split
  · split
    · exact sublist_append_both ev _ _ (by decide)
    · split
      · refine (stageBootKey_events_sub env (ev ++ [.startVm, .queryVmtools, .pollTcp]) _).trans ?_
        rw [List.append_assoc] <;> exact sublist_append_both ev _ _ (by decide)
      · split
        · refine (stageBootKey_events_sub env
              (ev ++ [.startVm, .queryVmtools, .pollTcp, .queryVmtools]) _).trans ?_
          rw [List.append_assoc] <;> exact sublist_append_both ev _ _ (by decide)
        · exact sublist_append_both ev _ _ (by decide)
  · exact sublist_append_both ev _ _ (by decide)

/-- Keygen-stage events are a sublist of the master tail. -/
theorem stageKeygen_events_sub (env : CloneEnv) (ev : List CloneEvent) :
    List.Sublist (stageKeygen env ev).events
      (ev ++ [.generateInstanceKey, .startVm, .queryVmtools, .pollTcp, .queryVmtools,
              .writeBootstrapKey, .initialSsh, .installAuthorizedKeys, .runBootstrapScript,
              .writeInstanceConfig]) := by
  unfold stageKeygen
  split
  · refine (stageAddr_events_sub env (ev ++ [.generateInstanceKey])).trans ?_
    rw [List.append_assoc] <;> exact sublist_append_both ev _ _ (by decide)
  · exact sublist_append_both ev _ _ (by decide)

/-- Clone-stage events are a sublist of the master tail. -/
theorem stageClone_events_sub (env : CloneEnv) (ev : List CloneEvent) :
    List.Sublist (stageClone env ev).events
      (ev ++ [.cloneVm, .generateInstanceKey, .startVm, .queryVmtools, .pollTcp, .queryVmtools,
              .writeBootstrapKey, .initialSsh, .installAuthorizedKeys, .runBootstrapScript,
              .writeInstanceConfig]) := by
  unfold stageClone
  split
  · refine (stageKeygen_events_sub env (ev ++ [.cloneVm])).trans ?_
    rw [List.append_assoc] <;> exact sublist_append_both ev _ _ (by decide)
  · exact sublist_append_both ev _ _ (by decide)

/-- Boxcar-vmx-check events are a sublist of the master tail. -/
theorem stageBoxcarVmx_events_sub (env : CloneEnv) (ev : List CloneEvent) :
    List.Sublist (stageBoxcarVmx env ev).events
      (ev ++ [.cloneVm, .generateInstanceKey, .startVm, .queryVmtools, .pollTcp, .queryVmtools,
              .writeBootstrapKey, .initialSsh, .installAuthorizedKeys, .runBootstrapScript,
              .writeInstanceConfig]) := by
  unfold stageBoxcarVmx
  split
  · exact stageClone_events_sub env ev
  · exact List.sublist_append_left ev _

/-- Unpack-stage events are a sublist of the master tail. -/
theorem stageUnpack_events_sub (env : CloneEnv) (ev : List CloneEvent) :
    List.Sublist (stageUnpack env ev).events
      (ev ++ [.unpackArchive, .writeUnpackMarker, .cloneVm, .generateInstanceKey, .startVm,
              .queryVmtools, .pollTcp, .queryVmtools, .writeBootstrapKey, .initialSsh,
              .installAuthorizedKeys, .runBootstrapScript, .writeInstanceConfig]) := by
  unfold stageUnpack
  split
  · refine (stageBoxcarVmx_events_sub env ev).trans ?_
    exact sublist_append_both ev _ _ (by decide)
  · split
    · split
      · refine (stageBoxcarVmx_events_sub env
            (ev ++ [.unpackArchive, .writeUnpackMarker])).trans ?_
        rw [List.append_assoc] <;> exact sublist_append_both ev _ _ (by decide)
      · exact sublist_append_both ev _ _ (by decide)
    · exact sublist_append_both ev _ _ (by decide)

/-- Mkdir-stage events are a sublist of the master tail. -/
theorem stageMkdir_events_sub (env : CloneEnv) (ev : List CloneEvent) :
    List.Sublist (stageMkdir env ev).events
      (ev ++ [.mkdirVmsDir, .unpackArchive, .writeUnpackMarker, .cloneVm, .generateInstanceKey,
              .startVm, .queryVmtools, .pollTcp, .queryVmtools, .writeBootstrapKey, .initialSsh,
              .installAuthorizedKeys, .runBootstrapScript, .writeInstanceConfig]) := by
  unfold stageMkdir
  split
  · refine (stageUnpack_events_sub env (ev ++ [.mkdirVmsDir])).trans ?_
    rw [List.append_assoc] <;> exact sublist_append_both ev _ _ (by decide)
  · exact sublist_append_both ev _ _ (by decide)

/-- Every clone run's event trace is a sublist of the fixed master order. -/
theorem runCloneModel_events_sub (env : CloneEnv) :
    List.Sublist (runCloneModel env).events masterEvents := by
  unfold runCloneModel
  split
  · exact List.nil_sublist _
  · split
    · split
      · exact (stageMkdir_events_sub env [.removeInstanceDir]).trans (by decide)
      · exact (by decide : List.Sublist [CloneEvent.removeInstanceDir] masterEvents)
    · exact (stageMkdir_events_sub env []).trans (by decide)

/-! ### Per-stage prefix property of the emitted events -/

/-- The bootstrap stage only appends to the events accumulated so far. -/
theorem stageBootstrap_events_ext (env : CloneEnv) (ev : List CloneEvent) (ip : GoString) :
    ∃ t, (stageBootstrap env ev ip).events = ev ++ t := by
  unfold stageBootstrap
  split
  · split
    · exact ⟨_, rfl⟩
    · exact ⟨_, rfl⟩
  · exact ⟨_, rfl⟩

/-- The scp stage only appends to the events accumulated so far. -/
theorem stageScp_events_ext (env : CloneEnv) (ev : List CloneEvent) (ip : GoString) :
    ∃ t, (stageScp env ev ip).events = ev ++ t := by
  unfold stageScp
  split
  · obtain ⟨t, ht⟩ := stageBootstrap_events_ext env (ev ++ [.installAuthorizedKeys]) ip
    exact ⟨_, by rw [ht, List.append_assoc]⟩
  · exact ⟨_, rfl⟩

/-- The initial-ssh stage only appends to the events accumulated so far. -/
theorem stageInitialSsh_events_ext (env : CloneEnv) (ev : List CloneEvent) (ip : GoString) :
    ∃ t, (stageInitialSsh env ev ip).events = ev ++ t := by
  unfold stageInitialSsh
  split
  · obtain ⟨t, ht⟩ := stageScp_events_ext env (ev ++ [.initialSsh]) ip
    exact ⟨_, by rw [ht, List.append_assoc]⟩
  · exact ⟨_, rfl⟩

/-- The bootstrap-key stage only appends to the events accumulated so far. -/
theorem stageBootKey_events_ext (env : CloneEnv) (ev : List CloneEvent) (ip : GoString) :
    ∃ t, (stageBootKey env ev ip).events = ev ++ t := by
  unfold stageBootKey
  split
  · exact stageInitialSsh_events_ext env ev ip
  · split
    · obtain ⟨t, ht⟩ := stageInitialSsh_events_ext env (ev ++ [.writeBootstrapKey]) ip
      exact ⟨_, by rw [ht, List.append_assoc]⟩
    · exact ⟨_, rfl⟩

/-- The power-on/address stage only appends to the events accumulated so
far. -/
theorem stageAddr_events_ext (env : CloneEnv) (ev : List CloneEvent) :
    ∃ t, (stageAddr env ev).events = ev ++ t := by
  unfold stageAddr
  split
  · split
    · exact ⟨_, rfl⟩
    · split
      · obtain ⟨t, ht⟩ := stageBootKey_events_ext env
          (ev ++ [.startVm, .queryVmtools, .pollTcp]) _
        exact ⟨_, by rw [ht, List.append_assoc]⟩
      · split
        · obtain ⟨t, ht⟩ := stageBootKey_events_ext env
            (ev ++ [.startVm, .queryVmtools, .pollTcp, .queryVmtools]) _
          exact ⟨_, by rw [ht, List.append_assoc]⟩
        · exact ⟨_, rfl⟩
  · exact ⟨_, rfl⟩

/-- The keygen stage only appends to the events accumulated so far. -/
theorem stageKeygen_events_ext (env : CloneEnv) (ev : List CloneEvent) :
    ∃ t, (stageKeygen env ev).events = ev ++ t := by
  unfold stageKeygen
  split
  · obtain ⟨t, ht⟩ := stageAddr_events_ext env (ev ++ [.generateInstanceKey])
    exact ⟨_, by rw [ht, List.append_assoc]⟩
  · exact ⟨_, rfl⟩

/-- The clone stage only appends to the events accumulated so far. -/
theorem stageClone_events_ext (env : CloneEnv) (ev : List CloneEvent) :
    ∃ t, (stageClone env ev).events = ev ++ t := by
  unfold stageClone
  split
  · obtain ⟨t, ht⟩ := stageKeygen_events_ext env (ev ++ [.cloneVm])
    exact ⟨_, by rw [ht, List.append_assoc]⟩
  · exact ⟨_, rfl⟩

/-- The boxcar-vmx check only appends to the events accumulated so far. -/
theorem stageBoxcarVmx_events_ext (env : CloneEnv) (ev : List CloneEvent) :
    ∃ t, (stageBoxcarVmx env ev).events = ev ++ t := by
  unfold stageBoxcarVmx
  split
  · exact stageClone_events_ext env ev
  · exact ⟨[], by simp⟩

/-- The unpack stage only appends to the events accumulated so far. -/
theorem stageUnpack_events_ext (env : CloneEnv) (ev : List CloneEvent) :
    ∃ t, (stageUnpack env ev).events = ev ++ t := by
  unfold stageUnpack
  split
  · exact stageBoxcarVmx_events_ext env ev
  · split
    · split
      · obtain ⟨t, ht⟩ := stageBoxcarVmx_events_ext env
          (ev ++ [.unpackArchive, .writeUnpackMarker])
        exact ⟨_, by rw [ht, List.append_assoc]⟩
      · exact ⟨_, rfl⟩
    · exact ⟨_, rfl⟩

/-- The mkdir stage only appends to the events accumulated so far. -/
theorem stageMkdir_events_ext (env : CloneEnv) (ev : List CloneEvent) :
    ∃ t, (stageMkdir env ev).events = ev ++ t := by
  unfold stageMkdir
  split
  · obtain ⟨t, ht⟩ := stageUnpack_events_ext env (ev ++ [.mkdirVmsDir])
    exact ⟨_, by rw [ht, List.append_assoc]⟩
  · exact ⟨_, rfl⟩

/-! ### Claim theorems about the clone pipeline -/

/-- C2: with a committed instance config present the clone run aborts
immediately with no events at all (in particular nothing under the instance
path is modified or removed); with a vmx file present but no committed
config, the very first action of the run removes the whole instance
directory, before any cloning step. -/
theorem clone_guard_protects (env : CloneEnv) :
    (env.configFileExists = true →
      runCloneModel env = { events := [], fatal := true, record := none }) ∧
    (env.configFileExists = false → env.vmxFileExists = true → env.removeAllOk = true →
      (runCloneModel env).events.head? = some .removeInstanceDir) := by
  constructor
  · intro h
    simp [runCloneModel, h]
  · intro h1 h2 h3
    simp only [runCloneModel, h1, h2, h3, Bool.false_eq_true, if_false, if_true]
    obtain ⟨t, ht⟩ := stageMkdir_events_ext env [.removeInstanceDir]
    rw [ht]
    rfl

/-- C2 witness: the guard theorem applied to the concrete environments with
an existing committed config and with a leftover vmx file. -/
theorem clone_guard_protects_witness :
    runCloneModel envExisting = { events := [], fatal := true, record := none } ∧
    (runCloneModel envPartial).events.head? = some .removeInstanceDir :=
  ⟨(clone_guard_protects envExisting).1 rfl,
   (clone_guard_protects envPartial).2 rfl rfl rfl⟩

/-- C6 counterexample: in a run where the TCP reachability poll times out
(address resolution via the guest tools stalls), the fallback performed is a
second guest-tools query; the DHCP lease scan is never invoked. -/
theorem clone_stalled_fallback_is_vmtools :
    (runCloneModel envStalled).events.filter isAddrEvent =
      [.queryVmtools, .pollTcp, .queryVmtools] ∧
    (runCloneModel envStalled).events.count .scanDhcpLeases = 0 := by decide

/-- C6 amended: during clone provisioning the guest-tools query is the
primary resolver and the TCP reachability poll gates progress, but the
fallback when the poll times out is a second guest-tools query; the DHCP
lease-file scan never occurs in any run, whatever the environment. -/
theorem clone_addr_never_scans_dhcp (env : CloneEnv) :
    (runCloneModel env).events.count .scanDhcpLeases = 0 ∧
    List.Sublist ((runCloneModel env).events.filter isAddrEvent)
      [.queryVmtools, .pollTcp, .queryVmtools] := by
  have hsub := runCloneModel_events_sub env
  refine ⟨?_, ?_⟩
  · have h := hsub.count_le CloneEvent.scanDhcpLeases
    have hm : masterEvents.count CloneEvent.scanDhcpLeases = 0 := by decide
    omega
  · have h := hsub.filter isAddrEvent
    have hm : masterEvents.filter isAddrEvent =
        [.queryVmtools, .pollTcp, .queryVmtools] := by decide
    rwa [hm] at h

/-- C8: the instance metadata record is committed exactly when every
pipeline stage up to and including the sentinel check and the config write
succeeds, it then carries the resolved guest-tools address and a non-zero
bootstrap timestamp, and the config-write event occurs at most once in any
run; any earlier failure leaves no committed record. -/
theorem clone_commit_single_point (env : CloneEnv) :
    (runCloneModel env).record =
      (if clonePipelineOk env then
        env.vmtoolsResult.map (fun ip => { ipAddr := ip, timeIsZero := false })
       else none) ∧
    (runCloneModel env).events.count .writeInstanceConfig ≤ 1 := by
  refine ⟨?_, ?_⟩
  · by_cases h1 : env.configFileExists <;> by_cases h2 : env.vmxFileExists <;>
      by_cases h3 : env.removeAllOk <;>
        simp [runCloneModel, clonePipelineOk, stageMkdir_record, h1, h2, h3]
  · have h := (runCloneModel_events_sub env).count_le CloneEvent.writeInstanceConfig
    have hm : masterEvents.count CloneEvent.writeInstanceConfig = 1 := by decide
    omega

/-- C5: on a well-formed lease file the scanner runs to completion and
returns the address of the last block whose hardware address equals the
given one (later blocks shadow earlier ones, computed by the keep-
overwriting fold), yielding the distinguished no-assignment condition when
no block matches; an unopenable file yields the distinct I/O error. -/
theorem lease_scan_last_match (mac : GoString) (bs : List LeaseBlock)
    (h : ∀ b ∈ bs, blockWf b) :
    findIpAddrFromVmdhcp mac (some (renderLease bs)) =
      (match lastMatch mac bs none with
       | none => LeaseResult.noIpAddrForMacAddr
       | some ip => LeaseResult.ok ip) ∧
    findIpAddrFromVmdhcp mac none = .ioError := by
  constructor
  · have hs := scan_renderLease mac bs none h
    simp [findIpAddrFromVmdhcp, hs]
  · rfl

/-- C5 witness: a lease file with two blocks for the same hardware address
resolves to the later block's IP, and a missing file is an I/O error. -/
theorem lease_scan_last_match_witness :
    findIpAddrFromVmdhcp (str "00:0c:29:ff:94:8f")
        (some (renderLease
          [{ ip := str "192.168.254.169", mac := str "00:0c:29:ff:94:8f" },
           { ip := str "192.168.254.170", mac := str "00:0c:29:ff:94:8f" }])) =
      .ok (str "192.168.254.170") ∧
    findIpAddrFromVmdhcp (str "00:0c:29:ff:94:8f") none = .ioError := by
  have h := lease_scan_last_match (str "00:0c:29:ff:94:8f")
    [{ ip := str "192.168.254.169", mac := str "00:0c:29:ff:94:8f" },
     { ip := str "192.168.254.170", mac := str "00:0c:29:ff:94:8f" }]
    (by decide)
  exact ⟨h.1.trans (by decide), h.2⟩

end Hobo
